import Mathlib

/-
  Verification of the theater seat-booking component
  (single React component, file src/unnamed/part_000).

  The component is embedded shallowly: its pure helpers become Lean
  functions and each stateful handler becomes a function from an explicit
  ComponentState (the useState fields of the component) to ComponentState,
  parameterised over the outcome of the one network request it performs.
-/

namespace TicketSystem

/-- Seat.status has the two literal values of the source union type
    (part_000 line 8). -/
inductive SeatStatus
  | available
  | booked
deriving DecidableEq, Repr

/-- interface Seat (part_000 lines 4-10). selectedBy is the occupant
    display name, null when the seat is free. -/
structure Seat where
  id : Nat
  row : Char
  number : Nat
  status : SeatStatus
  selectedBy : Option String
deriving DecidableEq, Repr

/-- interface BookedUser (part_000 lines 19-28): a booking record as
    reported by the service. The declared type makes seatId always a
    number, so the runtime guard seatId !== undefined at line 65 is
    always true in the typed model. -/
structure BookedUser where
  _id : String
  name : String
  email : String
  phone : String
  payment : String
  seatBooked : Bool
  seatId : Nat
  createdAt : String
deriving DecidableEq, Repr

/-- interface FormData (part_000 lines 12-17). -/
structure FormData where
  name : String
  email : String
  phone : String
  payment : String
deriving DecidableEq, Repr

/-- The alert() calls of the component, as structured events rather than
    raw strings (lines 173, 178, 232, 239). -/
inductive Notice
  | fillAllFields
  | noSeatSelected
  | bookingSuccess (name : String) (row : Char) (number : Nat)
  | bookingFailed (message : String)
deriving DecidableEq, Repr

/-- The useState fields of the component (part_000 lines 31-43),
    plus two observation fields: notices records the alert() calls in
    order, and pendingRefetch records whether a deferred
    setTimeout(fetchData) has been scheduled (line 235). -/
structure ComponentState where
  seats : List Seat
  selectedSeat : Option Seat
  showModal : Bool
  loading : Bool
  refreshing : Bool
  error : Option String
  bookedUsers : List BookedUser
  formData : FormData
  notices : List Notice
  pendingRefetch : Bool
deriving DecidableEq, Repr

/-- Initial FormData (lines 38-43, also the reset value at 229 and 252). -/
def initialFormData : FormData :=
  { name := "", email := "", phone := "", payment := "card" }

/-- The initial component state (lines 31-43): loading starts true. -/
def initialState : ComponentState :=
  { seats := [], selectedSeat := none, showModal := false, loading := true,
    refreshing := false, error := none, bookedUsers := [],
    formData := initialFormData, notices := [], pendingRefetch := false }

/-- generateAllSeats (part_000 lines 46-58): the loop i = 0..79 pushes a
    seat with id i, row String.fromCharCode(65 + floor(i/10)),
    number (i mod 10) + 1, status available, selectedBy null. -/
def generateAllSeats : List Seat :=
  (List.range 80).map fun i =>
    { id := i, row := Char.ofNat (65 + i / 10), number := i % 10 + 1,
      status := SeatStatus.available, selectedBy := none }

/-- The per-seat update of markBookedSeats (lines 68-72): a copy of the
    seat with status booked and selectedBy set to the record name; id,
    row and number are carried over by the spread. -/
def bookSeat (s : Seat) (nm : String) : Seat :=
  { s with status := SeatStatus.booked, selectedBy := some nm }

/-- findIndex(seat => seat.id === user.seatId) of line 66: index of the
    first seat whose id equals the sought id, none when there is none. -/
def findSeatIdx : List Seat → Nat → Option Nat
  | [], _ => none
  | s :: rest, sid =>
      if s.id = sid then some 0 else (findSeatIdx rest sid).map (· + 1)

/-- Lines 66-73 as one pass: findIndex locates the first seat with the
    matching id and, when it exists, the element at that index is
    replaced by its booked copy; when findIndex yields -1 the list is
    returned unchanged. -/
def updateFirst : List Seat → Nat → String → List Seat
  | [], _, _ => []
  | s :: rest, sid, nm =>
      if s.id = sid then bookSeat s nm :: rest
      else s :: updateFirst rest sid nm

/-- One iteration of the users.forEach body (lines 64-75): records with
    seatBooked = false are skipped, otherwise the first seat with the
    matching id is overwritten. -/
def markStep (l : List Seat) (u : BookedUser) : List Seat :=
  if u.seatBooked then updateFirst l u.seatId u.name else l

/-- markBookedSeats (part_000 lines 61-78): a copy of the seat array is
    updated once per record, in collection order. -/
def markBookedSeats (allSeats : List Seat) (users : List BookedUser) : List Seat :=
  users.foldl markStep allSeats

/-- The fields of a seat that reconciliation never touches: identity and
    address. Only status and selectedBy are outside the frame. -/
def seatFrame (s : Seat) : Nat × Char × Nat := (s.id, s.row, s.number)

/-- The name of the last record in the collection with seatBooked = true
    and the given seatId, if any. Later records take priority, matching
    the last-writer-wins overwrite of the forEach at lines 64-75. -/
def lastConfirmedName : List BookedUser → Nat → Option String
  | [], _ => none
  | u :: rest, sid =>
      match lastConfirmedName rest sid with
      | some nm => some nm
      | none => if u.seatBooked ∧ u.seatId = sid then some u.name else none

/-- Apply the outcome of lastConfirmedName to a seat: book it under the
    winning name when one exists, otherwise leave it alone. -/
def applyLast : Option String → Seat → Seat
  | none, s => s
  | some nm, s => bookSeat s nm

theorem bookSeat_id (s : Seat) (nm : String) : (bookSeat s nm).id = s.id := rfl

theorem bookSeat_bookSeat (s : Seat) (a b : String) :
    bookSeat (bookSeat s a) b = bookSeat s b := rfl

theorem applyLast_id (v : Option String) (s : Seat) : (applyLast v s).id = s.id := by
  cases v <;> rfl

theorem applyLast_applyLast (v : Option String) (s : Seat) :
    applyLast v (applyLast v s) = applyLast v s := by
  cases v <;> rfl

theorem updateFirst_map_frame (l : List Seat) (sid : Nat) (nm : String) :
    (updateFirst l sid nm).map seatFrame = l.map seatFrame := by
  induction l with
  | nil => rfl
  | cons s rest ih =>
      by_cases h : s.id = sid <;>
        simp [updateFirst, h, ih, bookSeat, seatFrame]

theorem updateFirst_map_id (l : List Seat) (sid : Nat) (nm : String) :
    (updateFirst l sid nm).map Seat.id = l.map Seat.id := by
  induction l with
  | nil => rfl
  | cons s rest ih =>
      by_cases h : s.id = sid <;>
        simp [updateFirst, h, ih, bookSeat]

theorem markStep_map_id (l : List Seat) (u : BookedUser) :
    (markStep l u).map Seat.id = l.map Seat.id := by
  unfold markStep
  split
  · exact updateFirst_map_id l u.seatId u.name
  · rfl

theorem markStep_map_frame (l : List Seat) (u : BookedUser) :
    (markStep l u).map seatFrame = l.map seatFrame := by
  unfold markStep
  split
  · exact updateFirst_map_frame l u.seatId u.name
  · rfl

theorem markBookedSeats_map_id (l : List Seat) (us : List BookedUser) :
    (markBookedSeats l us).map Seat.id = l.map Seat.id := by
  induction us generalizing l with
  | nil => rfl
  | cons u rest ih =>
      simp only [markBookedSeats, List.foldl_cons]
      exact (ih (markStep l u)).trans (markStep_map_id l u)

theorem markBookedSeats_map_frame (l : List Seat) (us : List BookedUser) :
    (markBookedSeats l us).map seatFrame = l.map seatFrame := by
  induction us generalizing l with
  | nil => rfl
  | cons u rest ih =>
      simp only [markBookedSeats, List.foldl_cons]
      exact (ih (markStep l u)).trans (markStep_map_frame l u)

theorem findSeatIdx_congr {l₁ l₂ : List Seat}
    (h : l₁.map Seat.id = l₂.map Seat.id) (sid : Nat) :
    findSeatIdx l₁ sid = findSeatIdx l₂ sid := by
  induction l₁ generalizing l₂ with
  | nil =>
      cases l₂ with
      | nil => rfl
      | cons b t => simp at h
  | cons a t ih =>
      cases l₂ with
      | nil => simp at h
      | cons b t₂ =>
          simp only [List.map_cons, List.cons.injEq] at h
          simp [findSeatIdx, h.1, ih h.2]

theorem getElem?_updateFirst (l : List Seat) (sid : Nat) (nm : String) (i : Nat) :
    (updateFirst l sid nm)[i]? =
      if findSeatIdx l sid = some i
      then l[i]?.map (fun s => bookSeat s nm)
      else l[i]? := by
  induction l generalizing i with
  | nil => simp [updateFirst, findSeatIdx]
  | cons s rest ih =>
      by_cases h : s.id = sid
      · simp only [updateFirst, findSeatIdx, if_pos h]
        cases i with
        | zero => simp
        | succ n => simp
      · simp only [updateFirst, findSeatIdx, if_neg h]
        cases i with
        | zero => cases hr : findSeatIdx rest sid <;> simp [hr]
        | succ n => cases hr : findSeatIdx rest sid <;> simp [hr, ih]

theorem findSeatIdx_found {l : List Seat} {sid : Nat} {i : Nat}
    (h : findSeatIdx l sid = some i) : ∃ s, l[i]? = some s ∧ s.id = sid := by
  induction l generalizing i with
  | nil => simp [findSeatIdx] at h
  | cons a rest ih =>
      by_cases ha : a.id = sid
      · simp only [findSeatIdx, if_pos ha, Option.some.injEq] at h
        exact ⟨a, by simp [← h], ha⟩
      · simp only [findSeatIdx, if_neg ha] at h
        cases hr : findSeatIdx rest sid with
        | none => rw [hr] at h; simp at h
        | some j =>
            rw [hr] at h
            simp at h
            obtain ⟨s, hs, hid⟩ := ih hr
            exact ⟨s, by rw [← h]; simpa using hs, hid⟩

theorem lastConfirmedName_cons (u : BookedUser) (rest : List BookedUser) (sid : Nat) :
    lastConfirmedName (u :: rest) sid =
      match lastConfirmedName rest sid with
      | some nm => some nm
      | none => if u.seatBooked ∧ u.seatId = sid then some u.name else none := rfl

theorem lastConfirmedName_cons_neg {u : BookedUser} {sid : Nat}
    (h : ¬(u.seatBooked ∧ u.seatId = sid)) (rest : List BookedUser) :
    lastConfirmedName (u :: rest) sid = lastConfirmedName rest sid := by
  rw [lastConfirmedName_cons]
  cases lastConfirmedName rest sid with
  | none => simp [h]
  | some nm => rfl

theorem lastConfirmedName_cons_pos {u : BookedUser} {sid : Nat}
    (h : u.seatBooked ∧ u.seatId = sid) (rest : List BookedUser) :
    lastConfirmedName (u :: rest) sid =
      some ((lastConfirmedName rest sid).getD u.name) := by
  rw [lastConfirmedName_cons]
  cases lastConfirmedName rest sid with
  | none => simp [h]
  | some nm => rfl

/-- Pointwise characterization of markBookedSeats: position i is changed
    exactly when it holds the first seat with its id and some confirmed
    record targets that id, in which case the last such record wins. -/
theorem getElem?_markBookedSeats (us : List BookedUser) (l : List Seat) (i : Nat) :
    (markBookedSeats l us)[i]? =
      match l[i]? with
      | none => none
      | some s =>
          if findSeatIdx l s.id = some i
          then some (applyLast (lastConfirmedName us s.id) s)
          else some s := by
  induction us generalizing l with
  | nil =>
      cases h : l[i]? <;> simp [markBookedSeats, lastConfirmedName, applyLast, h]
  | cons u rest ih =>
      have hstep : markBookedSeats l (u :: rest) = markBookedSeats (markStep l u) rest := by
        simp [markBookedSeats]
      rw [hstep, ih]
      have hfind : ∀ sid, findSeatIdx (markStep l u) sid = findSeatIdx l sid :=
        fun sid => findSeatIdx_congr (markStep_map_id l u) sid
      by_cases hb : u.seatBooked
      · have hms : markStep l u = updateFirst l u.seatId u.name := by
          simp [markStep, hb]
        cases hl : l[i]? with
        | none =>
            have h1 : (markStep l u)[i]? = none := by
              rw [hms, getElem?_updateFirst, hl]
              split <;> rfl
            rw [h1]
        | some s =>
            by_cases hf : findSeatIdx l u.seatId = some i
            · obtain ⟨s₀, hs₀, hid₀⟩ := findSeatIdx_found hf
              rw [hl] at hs₀
              injection hs₀ with hss
              subst hss
              have hms' : (markStep l u)[i]? = some (bookSeat s u.name) := by
                rw [hms, getElem?_updateFirst, if_pos hf, hl]; rfl
              have hsid : findSeatIdx l s.id = some i := by rw [hid₀]; exact hf
              rw [hms']
              cases hrest : lastConfirmedName rest s.id with
              | none =>
                  simp [hfind, bookSeat_id, hsid,
                    lastConfirmedName_cons_pos ⟨hb, hid₀.symm⟩ rest, hrest, applyLast]
              | some nm =>
                  simp [hfind, bookSeat_id, hsid,
                    lastConfirmedName_cons_pos ⟨hb, hid₀.symm⟩ rest, hrest, applyLast,
                    bookSeat_bookSeat]
            · have hms' : (markStep l u)[i]? = some s := by
                rw [hms, getElem?_updateFirst, if_neg hf, hl]
              rw [hms']
              by_cases hg : findSeatIdx l s.id = some i
              · have hne : ¬(u.seatBooked ∧ u.seatId = s.id) := by
                  rintro ⟨-, he⟩
                  exact hf (by rw [he]; exact hg)
                simp [hfind, hg, lastConfirmedName_cons_neg hne rest]
              · simp [hfind, hg]
      · have hms : markStep l u = l := by simp [markStep, hb]
        have hlast : ∀ sid, lastConfirmedName (u :: rest) sid = lastConfirmedName rest sid :=
          fun sid => lastConfirmedName_cons_neg (fun hc => hb hc.1) rest
        rw [hms]
        cases hl : l[i]? with
        | none => rfl
        | some s => simp [hlast]

theorem findSeatIdx_self_of_nodup {l : List Seat} (h : (l.map Seat.id).Nodup)
    {i : Nat} {s : Seat} (hs : l[i]? = some s) : findSeatIdx l s.id = some i := by
  induction l generalizing i with
  | nil => simp at hs
  | cons a rest ih =>
      rw [List.map_cons, List.nodup_cons] at h
      cases i with
      | zero =>
          obtain rfl : a = s := by simpa using hs
          simp [findSeatIdx]
      | succ n =>
          rw [List.getElem?_cons_succ] at hs
          have hmem : s ∈ rest := by
            have := List.getElem?_eq_some_iff.mp hs
            obtain ⟨hlt, he⟩ := this
            exact he ▸ List.getElem_mem hlt
          have hne : ¬a.id = s.id := fun he => h.1 (he ▸ List.mem_map_of_mem Seat.id hmem)
          simp [findSeatIdx, hne, ih h.2 hs]

/-- C1: for a seat sequence with unique ids (the Seat data model
    invariant), markBookedSeats leaves position i unchanged unless some
    record with seatConfirmed = true targets the id of the seat there,
    in which case that position holds the seat with status booked and
    occupantName the name of the last such record in collection order.
    Records with seatBooked = false or with an unmatched seatId
    contribute nothing to lastConfirmedName, hence leave every seat
    unaffected. -/
theorem markBookedSeats_contract (l : List Seat) (us : List BookedUser)
    (hids : (l.map Seat.id).Nodup) (i : Nat) (s : Seat) (hs : l[i]? = some s) :
    (markBookedSeats l us)[i]? = some (applyLast (lastConfirmedName us s.id) s) := by
  have hfind := findSeatIdx_self_of_nodup hids hs
  rw [getElem?_markBookedSeats, hs]
  simp [hfind]

/-- A concrete available seat with id 5, for witness scenarios. -/
def seatFive : Seat :=
  { id := 5, row := 'A', number := 6, status := SeatStatus.available, selectedBy := none }

/-- A confirmed record for seat 5 under the name Bob. -/
def recBob : BookedUser :=
  { _id := "b1", name := "Bob", email := "b@x.com", phone := "111", payment := "card",
    seatBooked := true, seatId := 5, createdAt := "t1" }

/-- A confirmed record for seat 5 under the name Alice. -/
def recAlice : BookedUser :=
  { _id := "a1", name := "Alice", email := "a@x.com", phone := "555", payment := "card",
    seatBooked := true, seatId := 5, createdAt := "t2" }

/-- Witness for C1, the spec scenario of two confirmed records for seat
    id 5: the later record (Alice) determines the occupant. -/
theorem markBookedSeats_contract_witness :
    ([seatFive].map Seat.id).Nodup
    ∧ [seatFive][0]? = some seatFive
    ∧ (markBookedSeats [seatFive] [recBob, recAlice])[0]? =
        some (applyLast (lastConfirmedName [recBob, recAlice] seatFive.id) seatFive)
    ∧ lastConfirmedName [recBob, recAlice] seatFive.id = some "Alice" :=
  ⟨by decide, by decide,
   markBookedSeats_contract [seatFive] [recBob, recAlice] (by decide) 0 seatFive (by decide),
   by decide⟩

/-- C9: reconciliation is idempotent, for every seat sequence and every
    booking collection: a second pass rewrites each touched position
    with the same winning record, and touches nothing else. -/
theorem markBookedSeats_idem (l : List Seat) (us : List BookedUser) :
    markBookedSeats (markBookedSeats l us) us = markBookedSeats l us := by
  apply List.ext_getElem?
  intro i
  have hfind : ∀ sid, findSeatIdx (markBookedSeats l us) sid = findSeatIdx l sid :=
    fun sid => findSeatIdx_congr (markBookedSeats_map_id l us) sid
  rw [getElem?_markBookedSeats us (markBookedSeats l us) i]
  cases hl : l[i]? with
  | none =>
      have h0 : (markBookedSeats l us)[i]? = none := by
        rw [getElem?_markBookedSeats, hl]
      rw [h0]
  | some s =>
      by_cases hf : findSeatIdx l s.id = some i
      · have h0 : (markBookedSeats l us)[i]? =
            some (applyLast (lastConfirmedName us s.id) s) := by
          rw [getElem?_markBookedSeats, hl]
          simp [hf]
        rw [h0]
        simp [hfind, applyLast_id, hf, applyLast_applyLast]
      · have h0 : (markBookedSeats l us)[i]? = some s := by
          rw [getElem?_markBookedSeats, hl]
          simp [hf]
        rw [h0]
        simp [hfind, hf]

/-- C10: markBookedSeats preserves the length of the seat sequence and
    the id, row and number of every seat at every position, so only
    status and selectedBy can ever change; and a seat whose id is
    targeted by no confirmed record is returned completely unchanged,
    so only matched seats can differ at all. The embedding is a pure
    function over immutable lists, matching the source, which copies
    the array and replaces updated elements by fresh objects instead of
    mutating the input. -/
theorem markBookedSeats_frame (l : List Seat) (us : List BookedUser) :
    (markBookedSeats l us).length = l.length
    ∧ (markBookedSeats l us).map seatFrame = l.map seatFrame
    ∧ ∀ (i : Nat) (s : Seat), l[i]? = some s → lastConfirmedName us s.id = none →
        (markBookedSeats l us)[i]? = some s := by
  refine ⟨?_, markBookedSeats_map_frame l us, ?_⟩
  · have h := congrArg List.length (markBookedSeats_map_frame l us)
    simpa using h
  · intro i s hs hnone
    rw [getElem?_markBookedSeats, hs]
    simp [hnone, applyLast]

/-- A confirmed record for seat 7, matching no seat in the singleton
    witness list for C10. -/
def recCharlie : BookedUser :=
  { _id := "c1", name := "Charlie", email := "c@x.com", phone := "777", payment := "cash",
    seatBooked := true, seatId := 7, createdAt := "t3" }

/-- Witness for C10: seat 5 is targeted by no record in the collection
    (the only record confirms seat 7), so it comes back unchanged. -/
theorem markBookedSeats_frame_witness :
    [seatFive][0]? = some seatFive
    ∧ lastConfirmedName [recCharlie] seatFive.id = none
    ∧ (markBookedSeats [seatFive] [recCharlie])[0]? = some seatFive :=
  ⟨by decide, by decide,
   (markBookedSeats_frame [seatFive] [recCharlie]).2.2 0 seatFive (by decide) (by decide)⟩

/-- C8: the Seat Model Builder with capacity 80 and row width 10
    produces exactly 80 seats with ids 0..79 in order, each available
    with no occupant, row the letter for floor(id/10) starting at A,
    number (id mod 10) + 1, and the address round-trips:
    id = rowIndex * 10 + (number - 1). -/
theorem generateAllSeats_spec :
    generateAllSeats.length = 80
    ∧ generateAllSeats.map Seat.id = List.range 80
    ∧ ∀ s ∈ generateAllSeats,
        s.status = SeatStatus.available
        ∧ s.selectedBy = none
        ∧ s.row = Char.ofNat (65 + s.id / 10)
        ∧ s.number = s.id % 10 + 1
        ∧ s.id = (s.row.toNat - 65) * 10 + (s.number - 1) := by
  decide

/-- A JSON value sitting under the data or users key of a wrapper
    object: either an array of booking records or anything else. The
    source only ever asks Array.isArray of it. -/
inductive JsonField
  | jarr (l : List BookedUser)
  | jnonarray
deriving DecidableEq, Repr

/-- The parsed fetch response body (part_000 lines 112-126): a bare
    array, an object whose data and users keys may be absent or hold
    arbitrary values, the JSON null literal, or a non-null non-object
    primitive (number, string, boolean) on which property access yields
    undefined. Null is kept separate because reading the data property
    of null throws, while on the other primitives it merely yields
    undefined. -/
inductive FetchJson
  | jarray (l : List BookedUser)
  | jobject (dataField : Option JsonField) (usersField : Option JsonField)
  | jnull
  | jprimitive
deriving DecidableEq, Repr

/-- Whether an optional field currently holds an array; this is the
    combined truthy-and-Array.isArray test of lines 119 and 121 (an
    array is always truthy in the source language). -/
def isArrField : Option JsonField → Bool
  | some (JsonField.jarr _) => true
  | _ => false

/-- The shape normalization of fetchData (lines 115-126): a bare array
    is used directly; otherwise the array under the data key, else the
    array under the users key, else the empty list. On a parsed null
    body Array.isArray is false and reading data.data at line 119
    throws a TypeError, so normalization does not produce a list at
    all: that case is none here and lands in the catch branch. -/
def extractUsers : FetchJson → Option (List BookedUser)
  | FetchJson.jarray l => some l
  | FetchJson.jobject d u =>
      match d with
      | some (JsonField.jarr l) => some l
      | _ =>
          match u with
          | some (JsonField.jarr l) => some l
          | _ => some []
  | FetchJson.jnull => none
  | FetchJson.jprimitive => some []

/-- The outcome of the GET request of fetchData: failure covers a
    transport error, a non-ok status (the throw at line 109) and a JSON
    parse error; success carries the parsed body. -/
inductive FetchOutcome
  | failure
  | success (body : FetchJson)
deriving DecidableEq, Repr

/-- The error banner text set at line 147. -/
def fetchErrorText : String := "Failed to load seat data. Using demo data instead."

/-- The busy-flag phase of fetchData (lines 96-100): a manual refresh
    raises refreshing, an initial load raises loading. -/
def fetchDataStart (showRefresh : Bool) (st : ComponentState) : ComponentState :=
  if showRefresh then { st with refreshing := true } else { st with loading := true }

/-- fetchData (part_000 lines 94-155) as a state transition over the
    outcome of its one GET request. The catch branch (145-150) sets the
    banner, falls back to the generated seats and clears the booking
    list; it is reached both on a transport, status or parse failure
    and when shape inspection throws on a parsed null body (line 119).
    The success continuation (128-143) filters to seatBooked records,
    rebuilds and reconciles the seats and clears the banner. The
    finally branch (151-154) lowers both indicators on every path. -/
def fetchData (showRefresh : Bool) (outcome : FetchOutcome)
    (st : ComponentState) : ComponentState :=
  let st1 := fetchDataStart showRefresh st
  let failed :=
    { st1 with error := some fetchErrorText, seats := generateAllSeats,
               bookedUsers := [], loading := false, refreshing := false }
  match outcome with
  | FetchOutcome.failure => failed
  | FetchOutcome.success body =>
      match extractUsers body with
      | none => failed
      | some usersData =>
          let bookedUsersData := usersData.filter fun u => u.seatBooked
          let seatsWithBookings := markBookedSeats generateAllSeats bookedUsersData
          { st1 with bookedUsers := bookedUsersData, seats := seatsWithBookings,
                     error := none, loading := false, refreshing := false }

/-- The outcome of the POST request of handleConfirmBooking: an error
    response (the throw at lines 204-207, carrying the response text)
    or a parsed success body whose _id field may be absent. -/
inductive SubmitOutcome
  | httpError (errorText : String)
  | ok (idField : Option String)
deriving DecidableEq, Repr

/-- data._id at line 222 with the falsy-or fallback: the service id
    when it is a non-empty string, else the locally generated
    Date.now().toString() placeholder. -/
def newBookingId (idField : Option String) (nowMs : String) : String :=
  match idField with
  | some s => if s = "" then nowMs else s
  | none => nowMs

/-- The busy-flag phase of handleConfirmBooking (line 182): it raises
    the same loading field that fetchData uses for an initial load. -/
def handleConfirmBookingStart (st : ComponentState) : ComponentState :=
  { st with loading := true }

/-- handleConfirmBooking (part_000 lines 171-243) as a state transition
    over the outcome of its POST request. nowIso is the
    new Date().toISOString() of line 224 and nowMs the
    Date.now().toString() of line 222. Validation (172-180) alerts and
    stops before any request; on a thrown error the catch (237-239)
    alerts the message and the finally (240-242) lowers loading; on
    success (209-235) the selected seat is optimistically booked, a
    synthesized record is appended, the modal closes, form and
    selection reset, a success alert fires and a deferred fetchData is
    scheduled. -/
def handleConfirmBooking (outcome : SubmitOutcome) (nowIso : String) (nowMs : String)
    (st : ComponentState) : ComponentState :=
  if st.formData.name = "" ∨ st.formData.email = "" ∨ st.formData.phone = "" then
    { st with notices := st.notices ++ [Notice.fillAllFields] }
  else
    match st.selectedSeat with
    | none => { st with notices := st.notices ++ [Notice.noSeatSelected] }
    | some sel =>
        let st1 := handleConfirmBookingStart st
        match outcome with
        | SubmitOutcome.httpError errorText =>
            { st1 with notices := st1.notices ++ [Notice.bookingFailed errorText],
                       loading := false }
        | SubmitOutcome.ok idField =>
            let updatedSeats := st1.seats.map fun s =>
              if s.id = sel.id
              then { s with status := SeatStatus.booked,
                            selectedBy := some st.formData.name }
              else s
            let newBookedUser : BookedUser :=
              { _id := newBookingId idField nowMs,
                name := st.formData.name, email := st.formData.email,
                phone := st.formData.phone, payment := st.formData.payment,
                seatBooked := true, seatId := sel.id, createdAt := nowIso }
            { st1 with
                seats := updatedSeats,
                bookedUsers := st1.bookedUsers ++ [newBookedUser],
                showModal := false,
                formData := initialFormData,
                selectedSeat := none,
                notices := st1.notices ++
                  [Notice.bookingSuccess st.formData.name sel.row sel.number],
                pendingRefetch := true,
                loading := false }

/-- The two busy indicator fields of the component. -/
inductive BusyFlag
  | loadingFlag
  | refreshingFlag
deriving DecidableEq, Repr

/-- Which field the busy phase of fetchData raises (lines 96-100). -/
def fetchBusyFlag (showRefresh : Bool) : BusyFlag :=
  if showRefresh then BusyFlag.refreshingFlag else BusyFlag.loadingFlag

/-- Which field the busy phase of handleConfirmBooking raises
    (line 182). -/
def submitBusyFlag : BusyFlag := BusyFlag.loadingFlag

/-- Read a busy field out of the state. -/
def readFlag : BusyFlag → ComponentState → Bool
  | BusyFlag.loadingFlag, st => st.loading
  | BusyFlag.refreshingFlag, st => st.refreshing

/-- An idle concrete state with both indicators lowered, for the C2
    counterexample. -/
def demoIdleState : ComponentState := { initialState with loading := false }

theorem extractUsers_data (l : List BookedUser) (uf : Option JsonField) :
    extractUsers (FetchJson.jobject (some (JsonField.jarr l)) uf) = some l := rfl

theorem extractUsers_users {df : Option JsonField} (hdf : isArrField df = false)
    (l : List BookedUser) :
    extractUsers (FetchJson.jobject df (some (JsonField.jarr l))) = some l := by
  cases df with
  | none => rfl
  | some f =>
      cases f with
      | jarr l2 => simp [isArrField] at hdf
      | jnonarray => rfl

theorem extractUsers_not_array {df uf : Option JsonField}
    (hdf : isArrField df = false) (huf : isArrField uf = false) :
    extractUsers (FetchJson.jobject df uf) = some [] := by
  cases df with
  | none =>
      cases uf with
      | none => rfl
      | some g =>
          cases g with
          | jarr l => simp [isArrField] at huf
          | jnonarray => rfl
  | some f =>
      cases f with
      | jarr l => simp [isArrField] at hdf
      | jnonarray =>
          cases uf with
          | none => rfl
          | some g =>
              cases g with
              | jarr l => simp [isArrField] at huf
              | jnonarray => rfl

theorem fetchData_success_congr (b : Bool) (st : ComponentState) {b1 b2 : FetchJson}
    (h : extractUsers b1 = extractUsers b2) :
    fetchData b (FetchOutcome.success b1) st = fetchData b (FetchOutcome.success b2) st := by
  simp [fetchData, h]

theorem fetchData_empty_success (b : Bool) (st : ComponentState) {body : FetchJson}
    (h : extractUsers body = some []) :
    (fetchData b (FetchOutcome.success body) st).seats = generateAllSeats
    ∧ (fetchData b (FetchOutcome.success body) st).bookedUsers = []
    ∧ (fetchData b (FetchOutcome.success body) st).error = none := by
  refine ⟨?_, ?_, ?_⟩ <;> simp [fetchData, h, markBookedSeats]

/-- C3 as stated is false: the response text null parses successfully,
    but Array.isArray(null) is false and reading data.data from it at
    line 119 throws, so the catch branch runs and the banner is set:
    this successfully parsed shape is treated as a failure, not as an
    empty list. -/
theorem fetchData_null_counterexample :
    (fetchData false (FetchOutcome.success FetchJson.jnull) initialState).error
      = some fetchErrorText
    ∧ (fetchData false (FetchOutcome.success FetchJson.jnull) initialState).error ≠ none := by
  refine ⟨rfl, by decide⟩

/-- C3 amended: the three accepted response shapes with the same list
    contents produce the same state, and any other successfully parsed
    shape except a null body (an object with neither key holding an
    array, or a non-null primitive) is treated as the empty list: seats
    are the untouched Seat Model Builder output, the booking list is
    empty and no error is set. A parsed null body throws during shape
    inspection and is handled exactly like a transport failure. -/
theorem fetchData_shapes (b : Bool) (st : ComponentState) (l : List BookedUser)
    (df uf ufAny : Option JsonField)
    (hdf : isArrField df = false) (huf : isArrField uf = false) :
    fetchData b (FetchOutcome.success (FetchJson.jobject (some (JsonField.jarr l)) ufAny)) st
      = fetchData b (FetchOutcome.success (FetchJson.jarray l)) st
    ∧ fetchData b (FetchOutcome.success (FetchJson.jobject df (some (JsonField.jarr l)))) st
      = fetchData b (FetchOutcome.success (FetchJson.jarray l)) st
    ∧ (fetchData b (FetchOutcome.success (FetchJson.jobject df uf)) st).seats = generateAllSeats
    ∧ (fetchData b (FetchOutcome.success (FetchJson.jobject df uf)) st).bookedUsers = []
    ∧ (fetchData b (FetchOutcome.success (FetchJson.jobject df uf)) st).error = none
    ∧ (fetchData b (FetchOutcome.success FetchJson.jprimitive) st).seats = generateAllSeats
    ∧ (fetchData b (FetchOutcome.success FetchJson.jprimitive) st).bookedUsers = []
    ∧ (fetchData b (FetchOutcome.success FetchJson.jprimitive) st).error = none
    ∧ fetchData b (FetchOutcome.success FetchJson.jnull) st
      = fetchData b FetchOutcome.failure st := by
  obtain ⟨h1, h2, h3⟩ := fetchData_empty_success b st (extractUsers_not_array hdf huf)
  obtain ⟨h4, h5, h6⟩ := @fetchData_empty_success b st FetchJson.jprimitive rfl
  exact ⟨fetchData_success_congr b st (extractUsers_data l ufAny),
         fetchData_success_congr b st (extractUsers_users hdf l),
         h1, h2, h3, h4, h5, h6, rfl⟩

/-- Witness for C3 at a concrete shape triple: wrapping the same list
    under the data key gives the same state as the bare array. -/
theorem fetchData_shapes_witness :
    isArrField (some JsonField.jnonarray) = false
    ∧ isArrField (none : Option JsonField) = false
    ∧ fetchData false
        (FetchOutcome.success (FetchJson.jobject (some (JsonField.jarr [recAlice])) none))
        initialState
      = fetchData false (FetchOutcome.success (FetchJson.jarray [recAlice])) initialState :=
  ⟨by decide, by decide,
   (fetchData_shapes false initialState [recAlice] (some JsonField.jnonarray) none none
      (by decide) (by decide)).1⟩

/-- C4: on a fetch failure the banner is set, the seats fall back to
    the generated all-available set, the booking list is cleared and no
    re-fetch is scheduled; and on every outcome both indicators end up
    lowered by the finally branch. -/
theorem fetchData_failure_and_release (b : Bool) (o : FetchOutcome) (st : ComponentState) :
    (fetchData b FetchOutcome.failure st).error = some fetchErrorText
    ∧ (fetchData b FetchOutcome.failure st).seats = generateAllSeats
    ∧ (fetchData b FetchOutcome.failure st).bookedUsers = []
    ∧ (fetchData b FetchOutcome.failure st).pendingRefetch = st.pendingRefetch
    ∧ (fetchData b o st).loading = false
    ∧ (fetchData b o st).refreshing = false := by
  refine ⟨rfl, rfl, rfl, ?_, ?_, ?_⟩
  · cases b <;> rfl
  · cases o with
    | failure => rfl
    | success body => cases h : extractUsers body <;> simp [fetchData, h]
  · cases o with
    | failure => rfl
    | success body => cases h : extractUsers body <;> simp [fetchData, h]

/-- C7 as stated is false: a malformed shape ends the fetch cycle with
    error = none (line 143, no banner), while a transport failure ends
    it with the banner of line 147; the two user-visible error states
    differ at this concrete input. -/
theorem malformed_vs_failure_counterexample :
    (fetchData false (FetchOutcome.success (FetchJson.jobject none none)) initialState).error
      = none
    ∧ (fetchData false FetchOutcome.failure initialState).error = some fetchErrorText
    ∧ (fetchData false (FetchOutcome.success (FetchJson.jobject none none)) initialState).error
      ≠ (fetchData false FetchOutcome.failure initialState).error := by
  refine ⟨rfl, rfl, by decide⟩

/-- C7 amended: a malformed or unexpected response shape other than a
    parsed null body (an object with no array under data or users, or a
    non-null primitive) is recovered locally as empty data and yields
    the same seat state and booking list as a transport failure, but it
    is user-visibly distinct from one: it ends with the error banner
    cleared while the failure path sets it. A parsed null body instead
    throws during shape inspection and produces exactly the
    transport-failure state, indistinguishable from it. -/
theorem malformed_vs_failure_amended (b : Bool) (st : ComponentState)
    (df uf : Option JsonField)
    (hdf : isArrField df = false) (huf : isArrField uf = false) :
    (fetchData b (FetchOutcome.success (FetchJson.jobject df uf)) st).error = none
    ∧ (fetchData b (FetchOutcome.success FetchJson.jprimitive) st).error = none
    ∧ (fetchData b FetchOutcome.failure st).error = some fetchErrorText
    ∧ (fetchData b (FetchOutcome.success (FetchJson.jobject df uf)) st).seats
      = (fetchData b FetchOutcome.failure st).seats
    ∧ (fetchData b (FetchOutcome.success (FetchJson.jobject df uf)) st).bookedUsers
      = (fetchData b FetchOutcome.failure st).bookedUsers
    ∧ (fetchData b (FetchOutcome.success FetchJson.jprimitive) st).seats
      = (fetchData b FetchOutcome.failure st).seats
    ∧ (fetchData b (FetchOutcome.success FetchJson.jprimitive) st).bookedUsers
      = (fetchData b FetchOutcome.failure st).bookedUsers
    ∧ fetchData b (FetchOutcome.success FetchJson.jnull) st
      = fetchData b FetchOutcome.failure st := by
  obtain ⟨h1, h2, h3⟩ := fetchData_empty_success b st (extractUsers_not_array hdf huf)
  obtain ⟨h4, h5, h6⟩ := @fetchData_empty_success b st FetchJson.jprimitive rfl
  refine ⟨h3, h6, rfl, ?_, ?_, ?_, ?_, rfl⟩
  · rw [h1]; rfl
  · rw [h2]; rfl
  · rw [h4]; rfl
  · rw [h5]; rfl

/-- Witness for the amended C7 at a concrete malformed object. -/
theorem malformed_vs_failure_amended_witness :
    isArrField (some JsonField.jnonarray) = false
    ∧ isArrField (none : Option JsonField) = false
    ∧ (fetchData true
          (FetchOutcome.success (FetchJson.jobject (some JsonField.jnonarray) none))
          initialState).error = none :=
  ⟨by decide, by decide,
   (malformed_vs_failure_amended true initialState (some JsonField.jnonarray) none
      (by decide) (by decide)).1⟩

/-- C2 as stated is false: line 182 raises loading, the very field the
    non-refresh path of fetchData raises at line 99 and its finally
    clears at line 152, so the submission busy indicator is not a
    distinct state field from the fetch busy indicators. Demonstrated
    on a concrete idle state: both operations raise the same field. -/
theorem busyFlag_shared_counterexample :
    fetchBusyFlag false = submitBusyFlag
    ∧ readFlag submitBusyFlag demoIdleState = false
    ∧ readFlag submitBusyFlag (fetchDataStart false demoIdleState) = true
    ∧ readFlag submitBusyFlag (handleConfirmBookingStart demoIdleState) = true := by
  decide

/-- C2 amended: only the manual-refresh path of fetchData uses a busy
    field (refreshing) distinct from the one handleConfirmBooking
    raises; the non-refresh path of fetchData raises the very same
    loading field the submission uses, and fetchData lowers both fields
    on completion, so the two cycles do not track fully independent
    busy flags. -/
theorem busyFlag_partial_independence (st : ComponentState) (b : Bool) (o : FetchOutcome) :
    fetchBusyFlag true ≠ submitBusyFlag
    ∧ fetchBusyFlag false = submitBusyFlag
    ∧ (fetchDataStart true st).refreshing = true
    ∧ (fetchDataStart true st).loading = st.loading
    ∧ (fetchDataStart false st).loading = true
    ∧ (handleConfirmBookingStart st).loading = true
    ∧ (handleConfirmBookingStart st).refreshing = st.refreshing
    ∧ (fetchData b o st).loading = false
    ∧ (fetchData b o st).refreshing = false := by
  refine ⟨by decide, by decide, rfl, rfl, rfl, rfl, rfl, ?_, ?_⟩
  · cases o with
    | failure => rfl
    | success body => cases h : extractUsers body <;> simp [fetchData, h]
  · cases o with
    | failure => rfl
    | success body => cases h : extractUsers body <;> simp [fetchData, h]

/-- C5: with non-empty name, email and phone, a selected seat and a
    success response, the submission books every seat carrying the
    selected id under the submitted name, leaves other seats alone,
    appends the synthesized record (service id when present and
    non-empty, else the local placeholder; createdAt the current time),
    closes the modal, resets form and selection, alerts success and
    schedules the deferred re-fetch. -/
theorem handleConfirmBooking_success (idField : Option String)
    (nowIso nowMs : String) (st : ComponentState) (sel : Seat)
    (hname : st.formData.name ≠ "") (hemail : st.formData.email ≠ "")
    (hphone : st.formData.phone ≠ "") (hsel : st.selectedSeat = some sel) :
    (∀ (i : Nat) (s : Seat), st.seats[i]? = some s → s.id = sel.id →
        (handleConfirmBooking (SubmitOutcome.ok idField) nowIso nowMs st).seats[i]?
          = some { s with status := SeatStatus.booked,
                          selectedBy := some st.formData.name })
    ∧ (∀ (i : Nat) (s : Seat), st.seats[i]? = some s → s.id ≠ sel.id →
        (handleConfirmBooking (SubmitOutcome.ok idField) nowIso nowMs st).seats[i]?
          = some s)
    ∧ (handleConfirmBooking (SubmitOutcome.ok idField) nowIso nowMs st).bookedUsers
      = st.bookedUsers ++
          [{ _id := newBookingId idField nowMs, name := st.formData.name,
             email := st.formData.email, phone := st.formData.phone,
             payment := st.formData.payment, seatBooked := true, seatId := sel.id,
             createdAt := nowIso }]
    ∧ (∀ s, idField = some s → s ≠ "" → newBookingId idField nowMs = s)
    ∧ (idField = none → newBookingId idField nowMs = nowMs)
    ∧ (handleConfirmBooking (SubmitOutcome.ok idField) nowIso nowMs st).showModal = false
    ∧ (handleConfirmBooking (SubmitOutcome.ok idField) nowIso nowMs st).formData
      = initialFormData
    ∧ (handleConfirmBooking (SubmitOutcome.ok idField) nowIso nowMs st).selectedSeat = none
    ∧ (handleConfirmBooking (SubmitOutcome.ok idField) nowIso nowMs st).notices
      = st.notices ++ [Notice.bookingSuccess st.formData.name sel.row sel.number]
    ∧ (handleConfirmBooking (SubmitOutcome.ok idField) nowIso nowMs st).pendingRefetch
      = true := by
  obtain ⟨se, ss, sm, ld, rf, er, bu, fd, no, pr⟩ := st
  have hsel2 : ss = some sel := hsel
  subst hsel2
  have hcond : ¬(fd.name = "" ∨ fd.email = "" ∨ fd.phone = "") := by
    rintro (h | h | h)
    · exact hname h
    · exact hemail h
    · exact hphone h
  have hred : handleConfirmBooking (SubmitOutcome.ok idField) nowIso nowMs
      ⟨se, some sel, sm, ld, rf, er, bu, fd, no, pr⟩ =
      ⟨se.map fun s =>
          if s.id = sel.id
          then { s with status := SeatStatus.booked, selectedBy := some fd.name }
          else s,
        none, false, false, rf, er,
        bu ++ [⟨newBookingId idField nowMs, fd.name, fd.email, fd.phone, fd.payment,
                true, sel.id, nowIso⟩],
        initialFormData,
        no ++ [Notice.bookingSuccess fd.name sel.row sel.number],
        true⟩ := by
    unfold handleConfirmBooking
    rw [if_neg hcond]
    rfl
  rw [hred]
  refine ⟨?_, ?_, rfl, ?_, ?_, rfl, rfl, rfl, rfl, rfl⟩
  · intro i s hs hid
    simp [List.getElem?_map, hs, hid]
  · intro i s hs hid
    simp [List.getElem?_map, hs, hid]
  · intro s hsome hne
    simp [newBookingId, hsome, hne]
  · intro hnone
    simp [newBookingId, hnone]

/-- A concrete state ready for submission: all 80 generated seats, seat
    5 selected, the modal open and the form filled with the spec
    scenario values. -/
def submitReadyState : ComponentState :=
  { initialState with
      seats := generateAllSeats,
      selectedSeat := some seatFive,
      showModal := true,
      loading := false,
      formData := { name := "Alice", email := "a@x.com", phone := "555", payment := "card" } }

/-- Witness for C5, the spec scenario: booking seat id 5 as Alice on a
    mocked success marks seat 5 booked under Alice and closes the
    modal. -/
theorem handleConfirmBooking_success_witness :
    submitReadyState.formData.name ≠ ""
    ∧ submitReadyState.formData.email ≠ ""
    ∧ submitReadyState.formData.phone ≠ ""
    ∧ submitReadyState.selectedSeat = some seatFive
    ∧ submitReadyState.seats[5]? = some seatFive
    ∧ (handleConfirmBooking (SubmitOutcome.ok (some "srv1")) "2026-01-01T00:00:00Z"
          "1760000000000" submitReadyState).seats[5]?
      = some { seatFive with status := SeatStatus.booked, selectedBy := some "Alice" } :=
  ⟨by decide, by decide, by decide, rfl, by decide,
   (handleConfirmBooking_success (some "srv1") "2026-01-01T00:00:00Z" "1760000000000"
      submitReadyState seatFive (by decide) (by decide) (by decide) rfl).1
     5 seatFive (by decide) rfl⟩

/-- C6: on an error response the submission surfaces the failure
    message as an alert and leaves seats, modal, form, selection,
    booking list, error banner and the scheduled-refetch flag
    untouched; no optimistic update or append happens, and loading is
    lowered again by the finally branch. -/
theorem handleConfirmBooking_failure (msg : String) (nowIso nowMs : String)
    (st : ComponentState) (sel : Seat)
    (hname : st.formData.name ≠ "") (hemail : st.formData.email ≠ "")
    (hphone : st.formData.phone ≠ "") (hsel : st.selectedSeat = some sel) :
    (handleConfirmBooking (SubmitOutcome.httpError msg) nowIso nowMs st).seats = st.seats
    ∧ (handleConfirmBooking (SubmitOutcome.httpError msg) nowIso nowMs st).showModal
      = st.showModal
    ∧ (handleConfirmBooking (SubmitOutcome.httpError msg) nowIso nowMs st).formData
      = st.formData
    ∧ (handleConfirmBooking (SubmitOutcome.httpError msg) nowIso nowMs st).selectedSeat
      = st.selectedSeat
    ∧ (handleConfirmBooking (SubmitOutcome.httpError msg) nowIso nowMs st).bookedUsers
      = st.bookedUsers
    ∧ (handleConfirmBooking (SubmitOutcome.httpError msg) nowIso nowMs st).error = st.error
    ∧ (handleConfirmBooking (SubmitOutcome.httpError msg) nowIso nowMs st).pendingRefetch
      = st.pendingRefetch
    ∧ (handleConfirmBooking (SubmitOutcome.httpError msg) nowIso nowMs st).notices
      = st.notices ++ [Notice.bookingFailed msg]
    ∧ (handleConfirmBooking (SubmitOutcome.httpError msg) nowIso nowMs st).loading
      = false := by
  obtain ⟨se, ss, sm, ld, rf, er, bu, fd, no, pr⟩ := st
  have hsel2 : ss = some sel := hsel
  subst hsel2
  have hcond : ¬(fd.name = "" ∨ fd.email = "" ∨ fd.phone = "") := by
    rintro (h | h | h)
    · exact hname h
    · exact hemail h
    · exact hphone h
  have hred : handleConfirmBooking (SubmitOutcome.httpError msg) nowIso nowMs
      ⟨se, some sel, sm, ld, rf, er, bu, fd, no, pr⟩ =
      ⟨se, some sel, sm, false, rf, er, bu, fd,
        no ++ [Notice.bookingFailed msg], pr⟩ := by
    unfold handleConfirmBooking
    rw [if_neg hcond]
    rfl
  rw [hred]
  exact ⟨rfl, rfl, rfl, rfl, rfl, rfl, rfl, rfl, rfl⟩

/-- Witness for C6: a rejected submission from the ready state leaves
    the modal open and seat 5 untouched, and alerts the failure. -/
theorem handleConfirmBooking_failure_witness :
    submitReadyState.formData.name ≠ ""
    ∧ submitReadyState.formData.email ≠ ""
    ∧ submitReadyState.formData.phone ≠ ""
    ∧ submitReadyState.selectedSeat = some seatFive
    ∧ (handleConfirmBooking (SubmitOutcome.httpError "seat already taken") "t" "m"
          submitReadyState).seats = submitReadyState.seats :=
  ⟨by decide, by decide, by decide, rfl,
   (handleConfirmBooking_failure "seat already taken" "t" "m" submitReadyState seatFive
      (by decide) (by decide) (by decide) rfl).1⟩

end TicketSystem
